import Mathlib

/-!
Verification of the `dual_scorpion` dual-arm coordination layer
(`DualScorpionFollower` in
`build/lib/lerobot/robots/dual_scorpion_follower/dual_scorpion_follower.py`
and `DualScropionLeader` in
`src/lerobot/teleoperators/dual_scropion_leader/dual_scropion_leader.py`)
against its design specification.

The two device classes are shallowly embedded as pure Lean functions.
Effects on the two motor buses are made explicit: bus state is threaded
through, and an event trace records which bus primitives each operation
invokes and in which order.  The motor-bus driver and the safety-clamp
helper are external collaborators of this repository; they are modelled
from the specification's contract for them (see the doc comments on
`Bus`, `busIsCalibrated` and `ensure_safe_goal_position`).

Python `str` in Lean 4.14 maps directly onto `String` (a list of
characters); the Python string primitives the source uses
(`startswith`, `endswith`, `removesuffix`, `replace`, f-string
concatenation) are embedded below with their Python semantics.
Python `dict`s appear as insertion-ordered association lists; the
source never creates duplicate keys on the paths verified here.
Positions (Python floats) are embedded as `ℚ`: every claim checked
here involves only exact arithmetic (comparison, addition, min/max),
on which float and rational semantics agree for the values involved.
-/

namespace DualScorpion

/-! ### Python string primitives -/

/-- `pre <+: s` as a boolean on character lists: Python `startswith`. -/
def startsWithL : List Char → List Char → Bool
  | _, [] => true
  | [], _ :: _ => false
  | c :: s, p :: ps => c = p && startsWithL s ps

/-- Python `s.startswith(pre)`. -/
def pyStartsWith (s pre : String) : Bool :=
  startsWithL s.data pre.data

/-- Python `s.endswith(suf)`. -/
def pyEndsWith (s suf : String) : Bool :=
  startsWithL s.data.reverse suf.data.reverse

/-- Python `s.removesuffix(suf)`: drops `suf` if it is a suffix,
otherwise returns `s` unchanged. -/
def pyRemovesuffix (s suf : String) : String :=
  if pyEndsWith s suf then ⟨s.data.take (s.data.length - suf.data.length)⟩ else s

/-- Python string concatenation (f-string prefixing in the source). -/
def pyConcat (a b : String) : String :=
  ⟨a.data ++ b.data⟩

/-- One fuel-indexed step list for `pyReplace`; the fuel is the length of
the subject string, which bounds the number of emission steps. -/
def replaceLAux (pat rep : List Char) : Nat → List Char → List Char
  | _, [] => []
  | 0, s => s
  | fuel + 1, c :: cs =>
    if startsWithL (c :: cs) pat then
      rep ++ replaceLAux pat rep fuel ((c :: cs).drop pat.length)
    else
      c :: replaceLAux pat rep fuel cs

/-- Python `s.replace(pat, rep)` for a non-empty pattern: replaces every
(left-to-right, non-overlapping) occurrence of `pat` in `s` by `rep`.
The source only ever calls it with the patterns `"right_"` and
`"left_"`. -/
def pyReplace (s pat rep : String) : String :=
  ⟨replaceLAux pat.data rep.data s.data.length s.data⟩

example : pyStartsWith "right_joint0" "right_" = true := by decide
example : pyStartsWith "left_joint0" "right_" = false := by decide
example : pyEndsWith "right_joint0.pos" ".pos" = true := by decide
example : pyRemovesuffix "right_joint0.pos" ".pos" = "right_joint0" := by decide
example : pyConcat "right_" "joint0" = "right_joint0" := by decide
example : pyReplace "right_joint0" "right_" "" = "joint0" := by decide
example : pyReplace "right_right_joint0" "right_" "" = "joint0" := by decide

/-! ### Dictionaries and errors -/

/-- Python `dict` with `String` keys: an insertion-ordered association
list.  The source never creates duplicate keys on the verified paths. -/
abbrev Assoc (α : Type) := List (String × α)

/-- Python `d[k]` as an `Option` (`none` is where Python raises
`KeyError`). -/
def lookupA {α : Type} (m : Assoc α) (k : String) : Option α :=
  match m with
  | [] => none
  | (k', v) :: rest => if k' = k then some v else lookupA rest k

/-- The exceptions the embedded operations can surface.
`deviceAlreadyConnected` / `deviceNotConnected` are the lerobot typed
errors raised by the two device classes themselves; `keyError` is a
Python `KeyError` on a missing dictionary key; `busError` stands for an
opaque failure raised inside an external bus-handle primitive (the spec
treats bus transport errors as opaque and passed through); `interrupted`
stands for an abort inside an operator-paced calibration step. -/
inductive PyError where
  | deviceAlreadyConnected
  | deviceNotConnected
  | keyError (key : String)
  | busError
  | interrupted
  deriving DecidableEq, Repr

instance {ε α : Type} [DecidableEq ε] [DecidableEq α] :
    DecidableEq (Except ε α) := fun
  | .error e, .error f => decidable_of_iff (e = f) (by simp)
  | .error _, .ok _ => isFalse fun h => Except.noConfusion h
  | .ok _, .error _ => isFalse fun h => Except.noConfusion h
  | .ok a, .ok b => decidable_of_iff (a = b) (by simp)

/-! ### Motors and buses -/

/-- The eight fixed motor slots of one bus, with their ids, in the order
of the `motors={...}` dictionary passed to `FeetechMotorsBus` in both
classes' `__init__`: `joint0` up to `joint6` (ids 1..7) and `gripper` (id 8). -/
def busMotors : List (String × Nat) :=
  [("joint0", 1), ("joint1", 2), ("joint2", 3), ("joint3", 4),
   ("joint4", 5), ("joint5", 6), ("joint6", 7), ("gripper", 8)]

/-- The local motor names of one bus, in iteration order. -/
def motorNames : List String := busMotors.map Prod.fst

/-- One calibration record, mirroring lerobot's `MotorCalibration`
fields as assembled in `calibrate`. -/
structure MotorCalibration where
  id : Nat
  drive_mode : Nat
  homing_offset : Int
  range_min : Int
  range_max : Int
  deriving DecidableEq, Repr

/-- The state of one external bus handle that the coordination layer
observes: its connected flag and the calibration record set last
written to it (local motor keys).  The bus transport itself is out of
scope per the spec (§1, §6). -/
structure Bus where
  connected : Bool
  calibration : Assoc MotorCalibration
  deriving DecidableEq, Repr

/-- Modelled from the spec: the external bus handle's `is_calibrated`
flag, "derived from presence of a complete, valid calibration record
set for all 8 of its motors" (§3, Calibration State).  The bus driver
itself is not part of this repository. -/
def busIsCalibrated (b : Bus) : Bool :=
  motorNames.all fun m => (lookupA b.calibration m).isSome

/-! ### `DualScorpionFollower.send_action`

`send_action` is embedded as a pure function of: the device's
`is_connected` flag, the configured `max_relative_target`, the maps the
two buses' `sync_read("Present_Position")` calls would return (keyed by
local motor name, per the bus contract of spec §6 — the source's own
`get_observation` prefixes these same maps with the side names), and
the requested action.  It returns the two maps handed to
`sync_write("Goal_Position", ·)` and the applied action returned to the
caller, or the exception raised. -/

/-- The per-bus goal maps written and the applied action returned by a
successful `send_action`. -/
structure SentAction where
  rightWritten : Assoc ℚ
  leftWritten : Assoc ℚ
  applied : Assoc ℚ
  deriving DecidableEq, Repr

/-- `goal_pos = {key.removesuffix(".pos"): val for key, val in
action.items() if key.endswith(".pos")}`. -/
def goalPosOf (action : Assoc ℚ) : Assoc ℚ :=
  (action.filter fun kv => pyEndsWith kv.1 ".pos").map fun kv =>
    (pyRemovesuffix kv.1 ".pos", kv.2)

/-- One of the two comprehensions building `goal_present_pos`:
`{f"{side}{key}": (g_pos, present[key]) for key, g_pos in
goal_pos.items() if key.startswith(side)}` with `side` one of
`"right_"`/`"left_"`.  Looking up a key absent from `present` is where
Python raises `KeyError`. -/
def pairWithPresent (side : String) (present : Assoc ℚ) (goalPos : Assoc ℚ) :
    Except PyError (Assoc (ℚ × ℚ)) :=
  (goalPos.filter fun kv => pyStartsWith kv.1 side).mapM fun kv =>
    match lookupA present kv.1 with
    | some p => Except.ok (pyConcat side kv.1, (kv.2, p))
    | none => Except.error (PyError.keyError kv.1)

/-- Modelled from the spec: the Safety Clamp `ensure_safe_goal_position`
(imported by the source from lerobot's `robots/utils`, which is not part
of this repository).  Per §4.3: for each `(goal, present)` pair, the
difference is capped to `[-maxStep, maxStep]` and added back onto the
present position. -/
def ensure_safe_goal_position (goalPresent : Assoc (ℚ × ℚ)) (maxStep : ℚ) :
    Assoc ℚ :=
  goalPresent.map fun kv =>
    (kv.1, kv.2.2 + max (min (kv.2.1 - kv.2.2) maxStep) (-maxStep))

/-- `{key.replace(side, ""): val for key, val in goal_pos.items() if
key.startswith(side)}` — the per-bus goal map extraction. -/
def splitSide (side : String) (goalPos : Assoc ℚ) : Assoc ℚ :=
  (goalPos.filter fun kv => pyStartsWith kv.1 side).map fun kv =>
    (pyReplace kv.1 side "", kv.2)

/-- `DualScorpionFollower.send_action`. -/
def followerSendAction (connected : Bool) (maxRelativeTarget : Option ℚ)
    (rightPresent leftPresent : Assoc ℚ) (action : Assoc ℚ) :
    Except PyError SentAction :=
  if !connected then Except.error PyError.deviceNotConnected
  else
    let goalPos0 := goalPosOf action
    let clamped : Except PyError (Assoc ℚ) :=
      match maxRelativeTarget with
      | none => Except.ok goalPos0
      | some m => do
        let rightPart ← pairWithPresent "right_" rightPresent goalPos0
        let leftPart ← pairWithPresent "left_" leftPresent goalPos0
        Except.ok (ensure_safe_goal_position (rightPart ++ leftPart) m)
    clamped.map fun goalPos =>
      { rightWritten := splitSide "right_" goalPos
        leftWritten := splitSide "left_" goalPos
        applied := goalPos.map fun kv => (pyConcat kv.1 ".pos", kv.2) }

/-- A `sync_read("Present_Position")` result with every motor at 0. -/
def allZeroPresent : Assoc ℚ := motorNames.map fun m => (m, 0)

example :
    followerSendAction true (some 10) allZeroPresent allZeroPresent
      [("right_joint0.pos", 50)]
    = Except.error (PyError.keyError "right_joint0") := by decide

example :
    followerSendAction true none [] [] [("right_joint0.pos", 50), ("foo.pos", 1)]
    = Except.ok
        { rightWritten := [("joint0", 50)]
          leftWritten := []
          applied := [("right_joint0.pos", 50), ("foo.pos", 1)] } := by decide

/-! ### Device state and event traces

The lifecycle operations (`connect`, `disconnect`, `calibrate`,
`get_observation`, `get_action`) are embedded as state transformers.
A `Run` packages the exception surfaced (if any), the device state at
the point the operation returned or the exception propagated, and the
trace of external collaborator calls made, in order. -/

/-- External collaborator calls observable in a trace. -/
inductive Ev where
  | rightBusConnect
  | leftBusConnect
  | rightBusDisconnect
  | leftBusDisconnect
  | camConnect (key : String)
  | camDisconnect (key : String)
  | rightSyncRead
  | leftSyncRead
  | camRead (key : String)
  | calibrateRun
  | configureRun
  deriving DecidableEq, Repr

/-- `DualScorpionFollower` state: the two owned bus handles, the
configured cameras (key and connected flag; frames are out of scope),
and `self.calibration` (unified keys). -/
structure FollowerState where
  rightBus : Bus
  leftBus : Bus
  cameras : List (String × Bool)
  calibration : Assoc MotorCalibration
  deriving DecidableEq, Repr

/-- `DualScropionLeader` state: the two owned bus handles and
`self.calibration`. -/
structure LeaderState where
  rightBus : Bus
  leftBus : Bus
  calibration : Assoc MotorCalibration
  deriving DecidableEq, Repr

/-- `DualScorpionFollower.is_connected`: both buses and all cameras. -/
def followerIsConnected (s : FollowerState) : Bool :=
  s.rightBus.connected && s.leftBus.connected && s.cameras.all (·.2)

/-- `DualScropionLeader.is_connected`: both buses. -/
def leaderIsConnected (s : LeaderState) : Bool :=
  s.rightBus.connected && s.leftBus.connected

/-- `DualScorpionFollower.is_calibrated`. -/
def followerIsCalibrated (s : FollowerState) : Bool :=
  busIsCalibrated s.rightBus && busIsCalibrated s.leftBus

/-- `DualScropionLeader.is_calibrated`. -/
def leaderIsCalibrated (s : LeaderState) : Bool :=
  busIsCalibrated s.rightBus && busIsCalibrated s.leftBus

/-- Outcome of one lifecycle operation on device state `σ`. -/
structure Run (σ : Type) where
  err : Option PyError
  state : σ
  trace : List Ev
  deriving DecidableEq, Repr

/-- One external `bus.connect()` call: the injected flag `ok` says
whether the (out-of-scope) bus transport succeeds; on failure the bus
state is unchanged and an opaque bus error propagates. -/
def busConnect (ok : Bool) (b : Bus) : Except PyError Bus :=
  if ok then Except.ok { b with connected := true }
  else Except.error PyError.busError

/-! ### Calibration -/

/-- What the operator-paced bus primitives of one side's calibration
phase return: `set_half_turn_homings` (one offset per motor) and
`record_ranges_of_motion` (min and max per motor).  The bus-handle
contract (spec §6) returns these as maps covering every motor of the
bus, embedded as total functions on local motor names. -/
structure CalibReadings where
  homing : String → Int
  rangeMins : String → Int
  rangeMaxes : String → Int

/-- The record-assembly loop of `calibrate` for one side: for each
motor of the bus, a `MotorCalibration` built from that side's readings,
keyed `f"{side}{motor}"`. -/
def buildSideCalib (side : String) (r : CalibReadings) :
    Assoc MotorCalibration :=
  busMotors.map fun m =>
    (pyConcat side m.1,
     { id := m.2
       drive_mode := 0
       homing_offset := r.homing m.1
       range_min := r.rangeMins m.1
       range_max := r.rangeMaxes m.1 })

/-- The calibration-splitting dict comprehension at the end of
`calibrate`: `{motor.replace(side, ""): calib for motor, calib in
self.calibration.items() if motor.startswith(side)}`. -/
def splitCalib (side : String) (cal : Assoc MotorCalibration) :
    Assoc MotorCalibration :=
  (cal.filter fun kv => pyStartsWith kv.1 side).map fun kv =>
    (pyReplace kv.1 side "", kv.2)

/-- `DualScorpionFollower.calibrate`.  `rightR` holds what the right
bus's homing and range-recording primitives return.  `leftR = none`
embeds the run being interrupted during the left-side phase (after the
right side's homing, range recording and record assembly, before the
left side completes): at that point `self.calibration` holds exactly
the right-side records, and neither `write_calibration` call has been
reached, so both buses are untouched.  With `leftR = some l` the run
completes: the full record map replaces `self.calibration`, is split
per side, and is written to each bus. -/
def followerCalibrate (rightR : CalibReadings) (leftR : Option CalibReadings)
    (s : FollowerState) : Option PyError × FollowerState :=
  let s1 := { s with calibration := buildSideCalib "right_" rightR }
  match leftR with
  | none => (some PyError.interrupted, s1)
  | some l =>
    let full := buildSideCalib "right_" rightR ++ buildSideCalib "left_" l
    (none,
     { s with
        calibration := full
        rightBus := { s.rightBus with calibration := splitCalib "right_" full }
        leftBus := { s.leftBus with calibration := splitCalib "left_" full } })

/-- `DualScropionLeader.calibrate`: same protocol as the follower's. -/
def leaderCalibrate (rightR : CalibReadings) (leftR : Option CalibReadings)
    (s : LeaderState) : Option PyError × LeaderState :=
  let s1 := { s with calibration := buildSideCalib "right_" rightR }
  match leftR with
  | none => (some PyError.interrupted, s1)
  | some l =>
    let full := buildSideCalib "right_" rightR ++ buildSideCalib "left_" l
    (none,
     { s with
        calibration := full
        rightBus := { s.rightBus with calibration := splitCalib "right_" full }
        leftBus := { s.leftBus with calibration := splitCalib "left_" full } })

/-! ### Connect / disconnect -/

/-- The tail of `DualScorpionFollower.connect` after both bus connects
and the optional calibration: connect every camera, then `configure`. -/
def followerFinishConnect (s : FollowerState) : Run FollowerState :=
  { err := none
    state := { s with cameras := s.cameras.map fun kv => (kv.1, true) }
    trace := (s.cameras.map fun kv => Ev.camConnect kv.1) ++ [Ev.configureRun] }

/-- `DualScorpionFollower.connect` after both bus connects succeeded:
`if not self.is_calibrated and calibrate: self.calibrate()`, then
cameras and `configure`.  A calibration interruption propagates out of
`connect` before any camera is touched. -/
def followerConnectTail (calibFlag : Bool) (rightR : CalibReadings)
    (leftR : Option CalibReadings) (s : FollowerState) : Run FollowerState :=
  if !followerIsCalibrated s && calibFlag then
    match followerCalibrate rightR leftR s with
    | (some e, s') => { err := some e, state := s', trace := [Ev.calibrateRun] }
    | (none, s') =>
      let r := followerFinishConnect s'
      { r with trace := Ev.calibrateRun :: r.trace }
  else followerFinishConnect s

/-- `DualScorpionFollower.connect`: eager already-connected check, then
right bus connect, then left bus connect (each may fail, modelled by
the injected `rightOk`/`leftOk`; a failed bus connect leaves that bus's
state unchanged and propagates), then calibration/cameras/configure. -/
def followerConnect (rightOk leftOk calibFlag : Bool) (rightR : CalibReadings)
    (leftR : Option CalibReadings) (s : FollowerState) : Run FollowerState :=
  if followerIsConnected s then
    { err := some PyError.deviceAlreadyConnected, state := s, trace := [] }
  else
    match busConnect rightOk s.rightBus with
    | .error e => { err := some e, state := s, trace := [Ev.rightBusConnect] }
    | .ok rb =>
      let s1 := { s with rightBus := rb }
      match busConnect leftOk s1.leftBus with
      | .error e =>
        { err := some e, state := s1
          trace := [Ev.rightBusConnect, Ev.leftBusConnect] }
      | .ok lb =>
        let s2 := { s1 with leftBus := lb }
        let r := followerConnectTail calibFlag rightR leftR s2
        { r with trace := Ev.rightBusConnect :: Ev.leftBusConnect :: r.trace }

/-- The tail of `DualScropionLeader.connect`: just `configure`. -/
def leaderConnectTail (calibFlag : Bool) (rightR : CalibReadings)
    (leftR : Option CalibReadings) (s : LeaderState) : Run LeaderState :=
  if !leaderIsCalibrated s && calibFlag then
    match leaderCalibrate rightR leftR s with
    | (some e, s') => { err := some e, state := s', trace := [Ev.calibrateRun] }
    | (none, s') =>
      { err := none, state := s', trace := [Ev.calibrateRun, Ev.configureRun] }
  else { err := none, state := s, trace := [Ev.configureRun] }

/-- `DualScropionLeader.connect`. -/
def leaderConnect (rightOk leftOk calibFlag : Bool) (rightR : CalibReadings)
    (leftR : Option CalibReadings) (s : LeaderState) : Run LeaderState :=
  if leaderIsConnected s then
    { err := some PyError.deviceAlreadyConnected, state := s, trace := [] }
  else
    match busConnect rightOk s.rightBus with
    | .error e => { err := some e, state := s, trace := [Ev.rightBusConnect] }
    | .ok rb =>
      let s1 := { s with rightBus := rb }
      match busConnect leftOk s1.leftBus with
      | .error e =>
        { err := some e, state := s1
          trace := [Ev.rightBusConnect, Ev.leftBusConnect] }
      | .ok lb =>
        let s2 := { s1 with leftBus := lb }
        let r := leaderConnectTail calibFlag rightR leftR s2
        { r with trace := Ev.rightBusConnect :: Ev.leftBusConnect :: r.trace }

/-- `DualScorpionFollower.disconnect`: raises when not connected,
otherwise disconnects right bus, left bus, then every camera. -/
def followerDisconnect (s : FollowerState) : Run FollowerState :=
  if !followerIsConnected s then
    { err := some PyError.deviceNotConnected, state := s, trace := [] }
  else
    { err := none
      state :=
        { s with
            rightBus := { s.rightBus with connected := false }
            leftBus := { s.leftBus with connected := false }
            cameras := s.cameras.map fun kv => (kv.1, false) }
      trace := [Ev.rightBusDisconnect, Ev.leftBusDisconnect] ++
        s.cameras.map fun kv => Ev.camDisconnect kv.1 }

/-- `DualScropionLeader.disconnect`.  When the device is not connected
the source evaluates `DeviceNotConnectedError(f"...")` but never
`raise`s it (the statement is a bare expression), so execution falls
through to the two bus disconnects in every case. -/
def leaderDisconnect (s : LeaderState) : Run LeaderState :=
  { err := none
    state :=
      { s with
          rightBus := { s.rightBus with connected := false }
          leftBus := { s.leftBus with connected := false } }
    trace := [Ev.rightBusDisconnect, Ev.leftBusDisconnect] }

/-! ### Unified reads -/

/-- Outcome of a read-style operation: value produced (or exception)
and the collaborator calls made. -/
structure ReadRun (α : Type) where
  result : Except PyError α
  trace : List Ev
  deriving DecidableEq, Repr

/-- The side-prefixing merge both read paths perform:
`{f"right_{motor}.pos": val, ...}` updated with the left analogue. -/
def mergeSides (rightLocal leftLocal : Assoc ℚ) : Assoc ℚ :=
  (rightLocal.map fun kv => (pyConcat (pyConcat "right_" kv.1) ".pos", kv.2)) ++
  (leftLocal.map fun kv => (pyConcat (pyConcat "left_" kv.1) ".pos", kv.2))

/-- `DualScorpionFollower.get_observation`: eager connected check, then
both bus reads, merge, then one camera frame per camera (frames
themselves are out of scope; the camera reads appear in the trace). -/
def followerGetObservation (rightPresent leftPresent : Assoc ℚ)
    (s : FollowerState) : ReadRun (Assoc ℚ) :=
  if !followerIsConnected s then
    { result := Except.error PyError.deviceNotConnected, trace := [] }
  else
    { result := Except.ok (mergeSides rightPresent leftPresent)
      trace := [Ev.rightSyncRead, Ev.leftSyncRead] ++
        s.cameras.map fun kv => Ev.camRead kv.1 }

/-- `DualScropionLeader.get_action`: the source performs no
connectivity check — it proceeds straight to the two bus reads
whatever the device state. -/
def leaderGetAction (rightPresent leftPresent : Assoc ℚ)
    (_s : LeaderState) : ReadRun (Assoc ℚ) :=
  { result := Except.ok (mergeSides rightPresent leftPresent)
    trace := [Ev.rightSyncRead, Ev.leftSyncRead] }

/-! ### Feature schemas -/

/-- `DualScorpionFollower._motors_ft` key list: right-side keys then
left-side keys, each `f"{side}_{motor}.pos"`. -/
def followerMotorsFtKeys : List String :=
  (motorNames.map fun m => pyConcat (pyConcat "right_" m) ".pos") ++
  (motorNames.map fun m => pyConcat (pyConcat "left_" m) ".pos")

/-- `DualScropionLeader.action_features` key list. -/
def leaderActionFeatureKeys : List String :=
  (motorNames.map fun m => pyConcat (pyConcat "right_" m) ".pos") ++
  (motorNames.map fun m => pyConcat (pyConcat "left_" m) ".pos")

/-- `DualScorpionFollower.observation_features` key list:
`{**self._motors_ft, **self._cameras_ft}` — motor keys then one
unprefixed key per configured camera. -/
def followerObservationKeys (cameraKeys : List String) : List String :=
  followerMotorsFtKeys ++ cameraKeys

/-- The spec's unified key set (§3): the cross product of the sides
`{right, left}` with the 8 fixed joint slots, each key
`"{side}_{joint}.pos"`. -/
def specUnifiedKeys : List String :=
  (["right", "left"].map fun side =>
    ["joint0", "joint1", "joint2", "joint3", "joint4", "joint5", "joint6",
     "gripper"].map fun j => side ++ "_" ++ j ++ ".pos").flatten

/-! ### Configure -/

/-- Which bus a register write goes to. -/
inductive Side where
  | right
  | left
  deriving DecidableEq, Repr

/-- One `bus.write(register, motor, value)` call. -/
structure RegWrite where
  side : Side
  register : String
  motor : String
  value : Int
  deriving DecidableEq, Repr

/-- lerobot's `OperatingMode.POSITION.value`. -/
def positionModeValue : Int := 0

/-- Factory default of the sts3215 P coefficient, per the source's own
comment in `configure` ("Default is 32"). -/
def factoryPCoefficient : Int := 32

/-- Factory default of the sts3215 D coefficient, per the source's own
comment in `configure` ("Set I_Coefficient and D_Coefficient to default
value 0 and 32"). -/
def factoryDCoefficient : Int := 32

/-- The register writes `DualScorpionFollower.configure` performs, in
order: for every right-bus motor `Operating_Mode := POSITION`,
`P_Coefficient := 16`, `I_Coefficient := 0`, `D_Coefficient := 32`,
then the same for every left-bus motor. -/
def followerConfigureWrites : List RegWrite :=
  (motorNames.map fun m =>
    [⟨Side.right, "Operating_Mode", m, positionModeValue⟩,
     ⟨Side.right, "P_Coefficient", m, 16⟩,
     ⟨Side.right, "I_Coefficient", m, 0⟩,
     ⟨Side.right, "D_Coefficient", m, 32⟩]).flatten ++
  (motorNames.map fun m =>
    [⟨Side.left, "Operating_Mode", m, positionModeValue⟩,
     ⟨Side.left, "P_Coefficient", m, 16⟩,
     ⟨Side.left, "I_Coefficient", m, 0⟩,
     ⟨Side.left, "D_Coefficient", m, 32⟩]).flatten

/-- The register writes `DualScropionLeader.configure` performs:
`Operating_Mode := POSITION` for every motor of each bus — and nothing
else (no PID coefficient writes). -/
def leaderConfigureWrites : List RegWrite :=
  (motorNames.map fun m => ⟨Side.right, "Operating_Mode", m, positionModeValue⟩) ++
  (motorNames.map fun m => ⟨Side.left, "Operating_Mode", m, positionModeValue⟩)

/-! ### Helper lemmas -/

/-- `startsWithL l p` holds exactly when `l` is `p` followed by some
tail. -/
theorem startsWithL_iff (l p : List Char) :
    startsWithL l p = true ↔ ∃ t, l = p ++ t := by
  induction p generalizing l with
  | nil => simp [startsWithL]
  | cons q qs ih =>
    cases l with
    | nil => simp [startsWithL]
    | cons c cs =>
      simp only [startsWithL, Bool.and_eq_true, decide_eq_true_eq, ih,
        List.cons_append, List.cons.injEq]
      constructor
      · rintro ⟨rfl, t, rfl⟩
        exact ⟨t, rfl, rfl⟩
      · rintro ⟨t, rfl, rfl⟩
        exact ⟨rfl, t, rfl⟩

/-- Splitting off a suffix and re-appending it is the identity:
`s.removesuffix(suf) + suf == s` whenever `s.endswith(suf)`. -/
theorem pyConcat_pyRemovesuffix (s suf : String)
    (h : pyEndsWith s suf = true) :
    pyConcat (pyRemovesuffix s suf) suf = s := by
  obtain ⟨t, ht⟩ := (startsWithL_iff _ _).mp h
  have hs : s.data = t.reverse ++ suf.data := by
    have := congrArg List.reverse ht
    simpa using this
  have htake : s.data.take (s.data.length - suf.data.length) = t.reverse := by
    rw [hs, List.length_append, Nat.add_sub_cancel, List.take_left]
  apply String.ext
  show (pyRemovesuffix s suf).data ++ suf.data = s.data
  unfold pyRemovesuffix
  rw [if_pos h]
  show s.data.take (s.data.length - suf.data.length) ++ suf.data = s.data
  rw [htake]
  exact hs.symm

/-! ### Claim theorems -/

/-- Claim C1.  The spec's clamping scenario — a connected follower,
requested action `{right_joint0.pos: 50}`, right-bus present positions
reading 0 on every motor, `max_relative_target = 10` — is claimed to
read present positions and return the clamped `{right_joint0.pos: 10}`.
The code instead raises `KeyError("right_joint0")` while pairing goals
with present positions: the goal keys are already side-prefixed, but
`sync_read` returns maps keyed by local motor names, and the code
indexes them with the prefixed key. -/
theorem C1_clamped_send_action_raises_keyError :
    followerSendAction true (some 10) allZeroPresent allZeroPresent
      [("right_joint0.pos", 50)]
    = Except.error (PyError.keyError "right_joint0") := by decide

/-- A camera-less, fully disconnected follower. -/
def discBus : Bus := { connected := false, calibration := [] }

/-- A disconnected follower device with no cameras. -/
def discFollower : FollowerState :=
  { rightBus := discBus, leftBus := discBus, cameras := [], calibration := [] }

/-- A disconnected leader device. -/
def discLeader : LeaderState :=
  { rightBus := discBus, leftBus := discBus, calibration := [] }

/-- Claim C2.  On a device that is not connected, the follower's
`disconnect` does raise `DeviceNotConnectedError` with no bus
disconnect attempted, but the leader's `disconnect` raises nothing
(the source builds the exception object without `raise`) and goes on
to invoke disconnect on both buses. -/
theorem C2_disconnect_not_connected :
    followerDisconnect discFollower
      = { err := some PyError.deviceNotConnected, state := discFollower,
          trace := [] } ∧
    (leaderDisconnect discLeader).err = none ∧
    (leaderDisconnect discLeader).trace
      = [Ev.rightBusDisconnect, Ev.leftBusDisconnect] := by decide

/-- Claim C3 counterexample.  A connected follower (no clamp
configured) given the action `{home.pos: 5}`, whose key matches neither
side, reports no error: `send_action` returns normally, writes nothing
to either bus, and even echoes the dropped key in the applied action. -/
theorem C3_counterexample_unmatched_key_silently_dropped :
    followerSendAction true none [] [] [("home.pos", 5)]
    = Except.ok
        { rightWritten := [], leftWritten := [], applied := [("home.pos", 5)] } := by
  decide

/-- Claim C3 as amended.  A position-valued action key matching neither
side's name is not reported as an error: `send_action` (no clamp
configured) succeeds, writes nothing to either bus for it, and echoes
the key with its requested value in the applied action. -/
theorem C3_unmatched_key_dropped_not_reported (k : String) (v : ℚ)
    (rp lp : Assoc ℚ)
    (hpos : pyEndsWith k ".pos" = true)
    (hr : pyStartsWith (pyRemovesuffix k ".pos") "right_" = false)
    (hl : pyStartsWith (pyRemovesuffix k ".pos") "left_" = false) :
    followerSendAction true none rp lp [(k, v)]
    = Except.ok
        { rightWritten := [], leftWritten := [], applied := [(k, v)] } := by
  simp [followerSendAction, goalPosOf, splitSide, List.filter, hpos, hr, hl,
    Except.map, pyConcat_pyRemovesuffix k ".pos" hpos]

theorem C3_unmatched_key_dropped_not_reported_witness :
    followerSendAction true none [] [] [("foo.pos", 1)]
    = Except.ok
        { rightWritten := [], leftWritten := [], applied := [("foo.pos", 1)] } :=
  C3_unmatched_key_dropped_not_reported "foo.pos" 1 [] []
    (by decide) (by decide) (by decide)

/-- Claim C10.  With no `max_relative_target` configured, a connected
follower's `send_action` returns an applied action that is exactly the
position-valued part of the request — every key ending `.pos` appears
with its requested value, including keys matching neither side (which
are never written to a bus). -/
theorem C10_applied_action_echoes_every_pos_key (rp lp action : Assoc ℚ) :
    (followerSendAction true none rp lp action).map SentAction.applied
    = Except.ok (action.filter fun kv => pyEndsWith kv.1 ".pos") := by
  simp only [followerSendAction, goalPosOf, Bool.not_true, Bool.false_eq_true,
    if_false, Except.map]
  congr 1
  rw [List.map_map]
  conv_rhs =>
    rw [← List.map_id (List.filter (fun kv => pyEndsWith kv.1 ".pos") action)]
  apply List.map_congr_left
  intro kv hkv
  have hpos : pyEndsWith kv.1 ".pos" = true := by
    have := List.of_mem_filter hkv
    simpa using this
  simp [Function.comp, pyConcat_pyRemovesuffix kv.1 ".pos" hpos]

/-- A complete local calibration record set, one record per motor of a
bus (used to build a previously calibrated device). -/
def fullLocalCalib : Assoc MotorCalibration :=
  busMotors.map fun m =>
    (m.1, { id := m.2, drive_mode := 0, homing_offset := 0,
            range_min := 0, range_max := 4095 })

/-- A disconnected bus already holding a complete calibration set. -/
def calibBus : Bus := { connected := false, calibration := fullLocalCalib }

/-- Calibration primitives that report 0 for every homing offset,
range minimum and range maximum. -/
def zeroReadings : CalibReadings :=
  { homing := fun _ => 0, rangeMins := fun _ => 0, rangeMaxes := fun _ => 0 }

/-- A follower whose buses both already hold complete calibration. -/
def calibratedFollower : FollowerState :=
  { rightBus := calibBus, leftBus := calibBus, cameras := [], calibration := [] }

/-- Claim C4 counterexample.  On a device whose buses already hold a
complete calibration record set, a calibration run interrupted after
the right side (before the left side completes) leaves `is_calibrated`
reporting `true`, not `false`: the buses still hold their prior
records. -/
theorem C4_counterexample_interrupted_rerun_still_calibrated :
    (followerCalibrate zeroReadings none calibratedFollower).1
      = some PyError.interrupted ∧
    followerIsCalibrated (followerCalibrate zeroReadings none calibratedFollower).2
      = true := by decide

/-- Claim C4 as amended.  For both variants: a calibration run
interrupted after the right side's homing and range recording but
before the left side completes writes no calibration to either bus
(both bus states are exactly as before the run) and leaves
`is_calibrated` unchanged from its pre-run value — in particular still
`false` whenever the device was not already calibrated; and a
successful full run replaces the device's and both buses' calibration
records with exactly the records derived from the new run's readings,
independent of anything previously held (full replacement, never a
merge). -/
theorem C4_calibration_all_or_nothing :
    (∀ (s : FollowerState) (r : CalibReadings),
      (followerCalibrate r none s).1 = some PyError.interrupted ∧
      (followerCalibrate r none s).2.rightBus = s.rightBus ∧
      (followerCalibrate r none s).2.leftBus = s.leftBus ∧
      followerIsCalibrated (followerCalibrate r none s).2
        = followerIsCalibrated s) ∧
    (∀ (s : FollowerState) (r l : CalibReadings),
      (followerCalibrate r (some l) s).1 = none ∧
      (followerCalibrate r (some l) s).2.calibration
        = buildSideCalib "right_" r ++ buildSideCalib "left_" l ∧
      (followerCalibrate r (some l) s).2.rightBus.calibration
        = splitCalib "right_"
            (buildSideCalib "right_" r ++ buildSideCalib "left_" l) ∧
      (followerCalibrate r (some l) s).2.leftBus.calibration
        = splitCalib "left_"
            (buildSideCalib "right_" r ++ buildSideCalib "left_" l)) ∧
    (∀ (s : LeaderState) (r : CalibReadings),
      (leaderCalibrate r none s).1 = some PyError.interrupted ∧
      (leaderCalibrate r none s).2.rightBus = s.rightBus ∧
      (leaderCalibrate r none s).2.leftBus = s.leftBus ∧
      leaderIsCalibrated (leaderCalibrate r none s).2 = leaderIsCalibrated s) ∧
    (∀ (s : LeaderState) (r l : CalibReadings),
      (leaderCalibrate r (some l) s).1 = none ∧
      (leaderCalibrate r (some l) s).2.calibration
        = buildSideCalib "right_" r ++ buildSideCalib "left_" l ∧
      (leaderCalibrate r (some l) s).2.rightBus.calibration
        = splitCalib "right_"
            (buildSideCalib "right_" r ++ buildSideCalib "left_" l) ∧
      (leaderCalibrate r (some l) s).2.leftBus.calibration
        = splitCalib "left_"
            (buildSideCalib "right_" r ++ buildSideCalib "left_" l)) :=
  ⟨fun _ _ => ⟨rfl, rfl, rfl, rfl⟩, fun _ _ _ => ⟨rfl, rfl, rfl, rfl⟩,
   fun _ _ => ⟨rfl, rfl, rfl, rfl⟩, fun _ _ _ => ⟨rfl, rfl, rfl, rfl⟩⟩

/-- Claim C5.  Both variants' `connect` raises `AlreadyConnectedError`
(before touching any bus) exactly when the device reports connected;
otherwise the right bus is connected first, and when the right bus
connect succeeds and the left bus connect then fails, the failure
propagates with the right bus left connected (no rollback), the device
reporting `is_connected = false`, and the trace showing right-then-left
ordering. -/
theorem C5_connect_order_and_partial_failure (cFlag : Bool)
    (rR : CalibReadings) (lR : Option CalibReadings) :
    (∀ (rOk lOk : Bool) (s : FollowerState), followerIsConnected s = true →
      followerConnect rOk lOk cFlag rR lR s
        = { err := some PyError.deviceAlreadyConnected, state := s, trace := [] }) ∧
    (∀ s : FollowerState, followerIsConnected s = false →
      s.leftBus.connected = false →
      (followerConnect true false cFlag rR lR s).err = some PyError.busError ∧
      (followerConnect true false cFlag rR lR s).state.rightBus.connected = true ∧
      followerIsConnected (followerConnect true false cFlag rR lR s).state = false ∧
      (followerConnect true false cFlag rR lR s).trace
        = [Ev.rightBusConnect, Ev.leftBusConnect]) ∧
    (∀ (rOk lOk : Bool) (t : LeaderState), leaderIsConnected t = true →
      leaderConnect rOk lOk cFlag rR lR t
        = { err := some PyError.deviceAlreadyConnected, state := t, trace := [] }) ∧
    (∀ t : LeaderState, leaderIsConnected t = false →
      t.leftBus.connected = false →
      (leaderConnect true false cFlag rR lR t).err = some PyError.busError ∧
      (leaderConnect true false cFlag rR lR t).state.rightBus.connected = true ∧
      leaderIsConnected (leaderConnect true false cFlag rR lR t).state = false ∧
      (leaderConnect true false cFlag rR lR t).trace
        = [Ev.rightBusConnect, Ev.leftBusConnect]) := by
  refine ⟨?_, ?_, ?_, ?_⟩
  · intro rOk lOk s h
    simp [followerConnect, h]
  · intro s h hl
    refine ⟨?_, ?_, ?_, ?_⟩ <;>
      simp [followerConnect, h, busConnect, followerIsConnected, hl]
  · intro rOk lOk t h
    simp [leaderConnect, h]
  · intro t h hl
    refine ⟨?_, ?_, ?_, ?_⟩ <;>
      simp [leaderConnect, h, busConnect, leaderIsConnected, hl]

/-- A connected bus with no calibration. -/
def connBus : Bus := { connected := true, calibration := [] }

/-- A fully connected follower (no cameras configured). -/
def connFollower : FollowerState :=
  { rightBus := connBus, leftBus := connBus, cameras := [], calibration := [] }

/-- A fully connected leader. -/
def connLeader : LeaderState :=
  { rightBus := connBus, leftBus := connBus, calibration := [] }

theorem C5_connect_order_and_partial_failure_witness :
    followerConnect true true false zeroReadings none connFollower
      = { err := some PyError.deviceAlreadyConnected, state := connFollower,
          trace := [] } ∧
    (followerConnect true false false zeroReadings none discFollower).err
      = some PyError.busError ∧
    (followerConnect true false false zeroReadings none
      discFollower).state.rightBus.connected = true ∧
    followerIsConnected
      (followerConnect true false false zeroReadings none discFollower).state
      = false ∧
    leaderConnect true true false zeroReadings none connLeader
      = { err := some PyError.deviceAlreadyConnected, state := connLeader,
          trace := [] } ∧
    (leaderConnect true false false zeroReadings none discLeader).err
      = some PyError.busError := by
  have h := C5_connect_order_and_partial_failure false zeroReadings none
  exact ⟨h.1 true true connFollower (by decide),
         (h.2.1 discFollower (by decide) (by decide)).1,
         (h.2.1 discFollower (by decide) (by decide)).2.1,
         (h.2.1 discFollower (by decide) (by decide)).2.2.1,
         h.2.2.1 true true connLeader (by decide),
         (h.2.2.2 discLeader (by decide) (by decide)).1⟩

/-- Claim C6.  For every configuration, the action feature keys of both
variants, and the motor part of the follower's observation feature
keys, are exactly the cross product of the sides `{right, left}` with
the 8 fixed joint slots, each suffixed `.pos` — no extra, no missing,
no duplicate keys; the follower's observation features append exactly
one unprefixed key per configured camera. -/
theorem C6_feature_key_schema :
    followerMotorsFtKeys = specUnifiedKeys ∧
    leaderActionFeatureKeys = specUnifiedKeys ∧
    (∀ cameraKeys : List String,
      followerObservationKeys cameraKeys = specUnifiedKeys ++ cameraKeys) ∧
    specUnifiedKeys.Nodup := by
  have h : followerMotorsFtKeys = specUnifiedKeys := by decide
  refine ⟨h, by decide, fun c => ?_, by decide⟩
  unfold followerObservationKeys
  rw [h]

/-- Claim C7 counterexample.  On a disconnected leader, `get_action`
does not raise `NotConnectedError`: it returns normally and both bus
reads are attempted. -/
theorem C7_counterexample_leader_get_action_unchecked :
    leaderIsConnected discLeader = false ∧
    (leaderGetAction [] [] discLeader).result = Except.ok [] ∧
    (leaderGetAction [] [] discLeader).trace
      = [Ev.rightSyncRead, Ev.leftSyncRead] := by decide

/-- Claim C7 as amended.  The follower's `get_observation` fails with
`NotConnectedError` when the device is not connected, checked eagerly
before any bus read is attempted; the leader's `get_action` performs no
connectivity check at all and always proceeds to both bus reads. -/
theorem C7_read_connectivity_check (rp lp : Assoc ℚ) :
    (∀ s : FollowerState, followerIsConnected s = false →
      followerGetObservation rp lp s
        = { result := Except.error PyError.deviceNotConnected, trace := [] }) ∧
    (∀ s : LeaderState,
      leaderGetAction rp lp s
        = { result := Except.ok (mergeSides rp lp),
            trace := [Ev.rightSyncRead, Ev.leftSyncRead] }) := by
  refine ⟨fun s h => ?_, fun s => rfl⟩
  simp [followerGetObservation, h]

theorem C7_read_connectivity_check_witness :
    followerGetObservation [] [] discFollower
      = { result := Except.error PyError.deviceNotConnected, trace := [] } :=
  (C7_read_connectivity_check [] []).1 discFollower (by decide)

/-- Claim C8 counterexample.  The leader's `configure` writes nothing
but `Operating_Mode` — no PID coefficient is touched on either bus —
and the follower's `configure` writes the D coefficient at exactly its
factory default (32, per the source's own comment), so the claim that
both variants change PID gains with D raised is false. -/
theorem C8_counterexample_pid_gains :
    (leaderConfigureWrites.all fun w => w.register = "Operating_Mode") = true ∧
    (⟨Side.right, "D_Coefficient", "joint0", factoryDCoefficient⟩ : RegWrite)
      ∈ followerConfigureWrites := by decide

/-- Claim C8 as amended.  Both variants' `configure` sets
`Operating_Mode = POSITION` for every motor on both buses.  Only the
follower writes PID gains, and then as: P = 16 (lowered from the
factory default 32), I = 0 and D = 32 (both their factory defaults,
unchanged).  The leader writes no PID coefficient at all. -/
theorem C8_configure_writes :
    (∀ m ∈ motorNames,
      (⟨Side.right, "Operating_Mode", m, positionModeValue⟩ : RegWrite)
        ∈ followerConfigureWrites ∧
      (⟨Side.left, "Operating_Mode", m, positionModeValue⟩ : RegWrite)
        ∈ followerConfigureWrites ∧
      (⟨Side.right, "P_Coefficient", m, 16⟩ : RegWrite)
        ∈ followerConfigureWrites ∧
      (⟨Side.left, "P_Coefficient", m, 16⟩ : RegWrite)
        ∈ followerConfigureWrites ∧
      (⟨Side.right, "I_Coefficient", m, 0⟩ : RegWrite)
        ∈ followerConfigureWrites ∧
      (⟨Side.left, "I_Coefficient", m, 0⟩ : RegWrite)
        ∈ followerConfigureWrites ∧
      (⟨Side.right, "D_Coefficient", m, factoryDCoefficient⟩ : RegWrite)
        ∈ followerConfigureWrites ∧
      (⟨Side.left, "D_Coefficient", m, factoryDCoefficient⟩ : RegWrite)
        ∈ followerConfigureWrites ∧
      (⟨Side.right, "Operating_Mode", m, positionModeValue⟩ : RegWrite)
        ∈ leaderConfigureWrites ∧
      (⟨Side.left, "Operating_Mode", m, positionModeValue⟩ : RegWrite)
        ∈ leaderConfigureWrites) ∧
    (16 : Int) < factoryPCoefficient ∧
    (leaderConfigureWrites.all fun w =>
      w.register ≠ "P_Coefficient" ∧ w.register ≠ "I_Coefficient" ∧
        w.register ≠ "D_Coefficient") = true := by decide

theorem C8_configure_writes_witness :
    (⟨Side.right, "P_Coefficient", "joint0", 16⟩ : RegWrite)
      ∈ followerConfigureWrites ∧
    (⟨Side.right, "Operating_Mode", "joint0", positionModeValue⟩ : RegWrite)
      ∈ leaderConfigureWrites := by
  have h := C8_configure_writes
  have h0 := h.1 "joint0" (by decide)
  exact ⟨h0.2.2.1, h0.2.2.2.2.2.2.2.2.1⟩

/-- On any not-already-connected device, the follower's `connect` never
surfaces the already-connected error: it proceeds to the bus
connects. -/
theorem followerConnect_err_ne_already (rOk lOk cFlag : Bool)
    (rR : CalibReadings) (lR : Option CalibReadings) (s : FollowerState)
    (h : followerIsConnected s = false) :
    (followerConnect rOk lOk cFlag rR lR s).err
      ≠ some PyError.deviceAlreadyConnected := by
  unfold followerConnect
  rw [h]
  simp only [Bool.false_eq_true, if_false]
  cases rOk with
  | false => simp [busConnect]
  | true =>
    cases lOk with
    | false => simp [busConnect]
    | true =>
      simp only [busConnect, if_pos, Option.some.injEq]
      unfold followerConnectTail
      split
      · cases lR with
        | none => simp [followerCalibrate]
        | some l => simp [followerCalibrate, followerFinishConnect]
      · simp [followerFinishConnect]

/-- Same for the leader's `connect`. -/
theorem leaderConnect_err_ne_already (rOk lOk cFlag : Bool)
    (rR : CalibReadings) (lR : Option CalibReadings) (t : LeaderState)
    (h : leaderIsConnected t = false) :
    (leaderConnect rOk lOk cFlag rR lR t).err
      ≠ some PyError.deviceAlreadyConnected := by
  unfold leaderConnect
  rw [h]
  simp only [Bool.false_eq_true, if_false]
  cases rOk with
  | false => simp [busConnect]
  | true =>
    cases lOk with
    | false => simp [busConnect]
    | true =>
      simp only [busConnect, if_pos, Option.some.injEq]
      unfold leaderConnectTail
      split
      · cases lR with
        | none => simp [leaderCalibrate]
        | some l => simp [leaderCalibrate]
      · simp

/-- On any not-already-connected device, `connect` invokes the right
bus's own connect. -/
theorem followerConnect_trace_has_right (rOk lOk cFlag : Bool)
    (rR : CalibReadings) (lR : Option CalibReadings) (s : FollowerState)
    (h : followerIsConnected s = false) :
    Ev.rightBusConnect ∈ (followerConnect rOk lOk cFlag rR lR s).trace := by
  unfold followerConnect
  rw [h]
  simp only [Bool.false_eq_true, if_false]
  cases rOk <;> cases lOk <;> simp [busConnect]

/-- Same for the leader's `connect`. -/
theorem leaderConnect_trace_has_right (rOk lOk cFlag : Bool)
    (rR : CalibReadings) (lR : Option CalibReadings) (t : LeaderState)
    (h : leaderIsConnected t = false) :
    Ev.rightBusConnect ∈ (leaderConnect rOk lOk cFlag rR lR t).trace := by
  unfold leaderConnect
  rw [h]
  simp only [Bool.false_eq_true, if_false]
  cases rOk <;> cases lOk <;> simp [busConnect]

/-- Claim C9.  A partially connected device — right bus connected, left
bus not — reports `is_connected = false` (the flag is the conjunction
of the buses' and, for the follower, the cameras' flags), so `connect`
does not raise `AlreadyConnectedError` and goes on to invoke `connect`
on the already-connected right bus. -/
theorem C9_partial_connect_no_already_error (rOk lOk cFlag : Bool)
    (rR : CalibReadings) (lR : Option CalibReadings)
    (s : FollowerState) (t : LeaderState)
    (_hsr : s.rightBus.connected = true) (hsl : s.leftBus.connected = false)
    (_htr : t.rightBus.connected = true) (htl : t.leftBus.connected = false) :
    followerIsConnected s = false ∧
    (followerConnect rOk lOk cFlag rR lR s).err
      ≠ some PyError.deviceAlreadyConnected ∧
    Ev.rightBusConnect ∈ (followerConnect rOk lOk cFlag rR lR s).trace ∧
    leaderIsConnected t = false ∧
    (leaderConnect rOk lOk cFlag rR lR t).err
      ≠ some PyError.deviceAlreadyConnected ∧
    Ev.rightBusConnect ∈ (leaderConnect rOk lOk cFlag rR lR t).trace := by
  have hs : followerIsConnected s = false := by simp [followerIsConnected, hsl]
  have ht : leaderIsConnected t = false := by simp [leaderIsConnected, htl]
  exact ⟨hs, followerConnect_err_ne_already rOk lOk cFlag rR lR s hs,
         followerConnect_trace_has_right rOk lOk cFlag rR lR s hs,
         ht, leaderConnect_err_ne_already rOk lOk cFlag rR lR t ht,
         leaderConnect_trace_has_right rOk lOk cFlag rR lR t ht⟩

/-- A follower with only its right bus connected. -/
def partialFollower : FollowerState :=
  { rightBus := connBus, leftBus := discBus, cameras := [], calibration := [] }

/-- A leader with only its right bus connected. -/
def partialLeader : LeaderState :=
  { rightBus := connBus, leftBus := discBus, calibration := [] }

theorem C9_partial_connect_no_already_error_witness :
    followerIsConnected partialFollower = false ∧
    (followerConnect true true false zeroReadings none partialFollower).err
      ≠ some PyError.deviceAlreadyConnected ∧
    Ev.rightBusConnect
      ∈ (followerConnect true true false zeroReadings none partialFollower).trace ∧
    leaderIsConnected partialLeader = false ∧
    (leaderConnect true true false zeroReadings none partialLeader).err
      ≠ some PyError.deviceAlreadyConnected ∧
    Ev.rightBusConnect
      ∈ (leaderConnect true true false zeroReadings none partialLeader).trace :=
  C9_partial_connect_no_already_error true true false zeroReadings none
    partialFollower partialLeader (by decide) (by decide) (by decide) (by decide)

end DualScorpion
